import Mathlib

/-!
Shallow embedding of `src/Samvartha.py` and of the Chained Resolution Engine
described by the specification.

Conventions of the embedding:
* A Python call that may raise is modelled as a function into `Except Err α`;
  the external NLP backends (spaCy, NLTK, BART, T5) are parameters of that
  type, since their behaviour is outside the repository.
* A Python `try: ... except Exception: ...` block is modelled by `pyTry`.
* Python strings are `String`; regular-expression matching over them is
  implemented character by character on `String.data`, following the exact
  patterns of the source (`re` semantics: leftmost match, greedy `\d+`,
  `.` not matching a newline, `re.IGNORECASE` folding letter case).
-/

set_option autoImplicit false

/-- An exception value (the message carried by a raised Python exception). -/
abbrev Err := String

/-- Python `try: body except Exception as e: return handler(e)`: a fault
raised by the body is caught and turned into a normal return value; the
handler itself cannot fault. -/
def pyTry {α : Type} (body : Except Err α) (handler : Err → α) : Except Err α :=
  match body with
  | .ok a => .ok a
  | .error e => .ok (handler e)

/-! ### Character-level regex machinery for `interpret_with_regex` -/

/-- Single-character comparison, folding case when `ci` is set
(`re.IGNORECASE`). -/
def charEq (ci : Bool) (p c : Char) : Bool :=
  if ci then p.toLower == c.toLower else p == c

/-- Match the literal pattern `pat` at the head of `s`; on success return the
remainder of `s`. `ci` selects case-insensitive comparison. -/
def matchChars (ci : Bool) : List Char → List Char → Option (List Char)
  | [], s => some s
  | _ :: _, [] => none
  | p :: ps, c :: cs => if charEq ci p c then matchChars ci ps cs else none

/-- The maximal digit run (`\d+`, greedy) at the head of a string. -/
def digitRun (s : List Char) : List Char :=
  s.takeWhile Char.isDigit

/-- Match `song (\d+)` anchored at the head of `s`; on success return the
digits captured by group 1 (the maximal digit run after `"song "`). -/
def songNumAt (ci : Bool) (s : List Char) : Option (List Char) :=
  match matchChars ci ['s', 'o', 'n', 'g', ' '] s with
  | none => none
  | some rest =>
    let ds := digitRun rest
    if ds.isEmpty then none else some ds

/-- `re.search(r"song (\d+)", s)` with optional `IGNORECASE`: scan for the
leftmost position where `song (\d+)` matches, returning group 1. -/
def searchSongNum (ci : Bool) : List Char → Option (List Char)
  | [] => none
  | c :: cs =>
    match songNumAt ci (c :: cs) with
    | some ds => some ds
    | none => searchSongNum ci cs

/-- The `.*song (\d+)` tail of the play pattern: starting right after
`play`, skip characters (none of them a newline, since `.` does not match
`\n`) until `song (\d+)` matches, case-insensitively. -/
def bridgeToSong : List Char → Bool
  | [] => false
  | c :: cs =>
    if (songNumAt true (c :: cs)).isSome then true
    else if c == '\n' then false
    else bridgeToSong cs

/-- Match `play.*song (\d+)` (IGNORECASE) anchored at the head of `s`. -/
def playThenSongAt (s : List Char) : Bool :=
  match matchChars true ['p', 'l', 'a', 'y'] s with
  | none => false
  | some rest => bridgeToSong rest

/-- `re.search(r"play.*song (\d+)", s, re.IGNORECASE)` viewed as a Boolean
test (the source only uses its truthiness). -/
def searchPlaySong : List Char → Bool
  | [] => false
  | c :: cs => playThenSongAt (c :: cs) || searchPlaySong cs

/-- Substring test `pat in s` on character lists. -/
def containsSub (pat : List Char) : List Char → Bool
  | [] => pat.isEmpty
  | c :: cs => (matchChars false pat (c :: cs)).isSome || containsSub pat cs

/-- Python `"pause" in command.lower()`. -/
def containsPause (command : String) : Bool :=
  containsSub ['p', 'a', 'u', 's', 'e'] (command.data.map Char.toLower)

/-! ### `CommandInterpreter.interpret_with_regex` (Samvartha.py lines 41-52) -/

/-- The `try:` body of `interpret_with_regex`. When the case-insensitive
guard `re.search(r"play.*song (\d+)", command, re.IGNORECASE)` fires but the
second, case-SENSITIVE search `re.search(r"song (\d+)", command)` finds
nothing, the source calls `.group(1)` on `None`, raising `AttributeError`. -/
def interpret_with_regex_body (command : String) : Except Err String :=
  if searchPlaySong command.data then
    match searchSongNum false command.data with
    | some song_number => .ok ("Playing song number " ++ String.mk song_number)
    | none => .error "AttributeError: NoneType object has no attribute group"
  else if containsPause command then
    .ok "Pausing the song"
  else
    .ok "Command not recognized"

/-- `interpret_with_regex` as the caller observes it in the `Except` monad:
the body wrapped in its `try/except` handler. -/
def interpret_with_regex_run (command : String) : Except Err String :=
  pyTry (interpret_with_regex_body command) (fun _ => "Error processing command")

/-- `CommandInterpreter.interpret_with_regex`: always returns a plain string. -/
def interpret_with_regex (command : String) : String :=
  match interpret_with_regex_run command with
  | .ok r => r
  | .error _ => "Error processing command"

/-! ### `CommandInterpreter.interpret_with_spacy` (lines 21-29) -/

/-- `try:` body of `interpret_with_spacy`: invoke the external `nlp` model
(the token-logging loop is observational and carried inside `nlp`). -/
def interpret_with_spacy_body {Doc : Type} (nlp : String → Except Err Doc)
    (command : String) : Except Err (Option Doc) :=
  match nlp command with
  | .error e => .error e
  | .ok doc => .ok (some doc)

/-- `interpret_with_spacy` in the `Except` monad: faults from `nlp` are
caught and turned into `None`. -/
def interpret_with_spacy_run {Doc : Type} (nlp : String → Except Err Doc)
    (command : String) : Except Err (Option Doc) :=
  pyTry (interpret_with_spacy_body nlp command) (fun _ => none)

/-- `CommandInterpreter.interpret_with_spacy`: the document on success,
`None` when the backend faults. -/
def interpret_with_spacy {Doc : Type} (nlp : String → Except Err Doc)
    (command : String) : Option Doc :=
  match interpret_with_spacy_run nlp command with
  | .ok v => v
  | .error _ => none

/-! ### `CommandInterpreter.interpret_with_nltk` (lines 31-39) -/

/-- `try:` body of `interpret_with_nltk`: `tokens = word_tokenize(command)`
then `tagged = pos_tag(tokens)`, both external fallible calls. -/
def interpret_with_nltk_body (word_tokenize : String → Except Err (List String))
    (pos_tag : List String → Except Err (List (String × String)))
    (command : String) : Except Err (List (String × String)) :=
  match word_tokenize command with
  | .error e => .error e
  | .ok tokens =>
    match pos_tag tokens with
    | .error e => .error e
    | .ok tagged => .ok tagged

/-- `interpret_with_nltk` in the `Except` monad: faults are caught and
turned into `None`. -/
def interpret_with_nltk_run (word_tokenize : String → Except Err (List String))
    (pos_tag : List String → Except Err (List (String × String)))
    (command : String) : Except Err (Option (List (String × String))) :=
  pyTry
    (match interpret_with_nltk_body word_tokenize pos_tag command with
     | .error e => .error e
     | .ok tagged => .ok (some tagged))
    (fun _ => none)

/-- `CommandInterpreter.interpret_with_nltk`: the ordered `(token, tag)`
pairs on success, `None` when a backend faults. -/
def interpret_with_nltk (word_tokenize : String → Except Err (List String))
    (pos_tag : List String → Except Err (List (String × String)))
    (command : String) : Option (List (String × String)) :=
  match interpret_with_nltk_run word_tokenize pos_tag command with
  | .ok v => v
  | .error _ => none

/-! ### `CommandInterpreter.interpret_with_bart_t5` (lines 54-71) -/

/-- `try:` body of `interpret_with_bart_t5`: stage one paraphrases the
command with BART (tokenize, generate, decode collapsed into one fallible
call), stage two extracts a task label with T5 from the string
`"Extract task: " ++ paraphrase`. -/
def interpret_with_bart_t5_body (bart t5 : String → Except Err String)
    (command : String) : Except Err String :=
  match bart command with
  | .error e => .error e
  | .ok paraphrased_command =>
    match t5 ("Extract task: " ++ paraphrased_command) with
    | .error e => .error e
    | .ok extracted_task => .ok extracted_task

/-- `interpret_with_bart_t5` in the `Except` monad: a fault at either stage
is caught and turned into `None`. -/
def interpret_with_bart_t5_run (bart t5 : String → Except Err String)
    (command : String) : Except Err (Option String) :=
  pyTry
    (match interpret_with_bart_t5_body bart t5 command with
     | .error e => .error e
     | .ok extracted_task => .ok (some extracted_task))
    (fun _ => none)

/-- `CommandInterpreter.interpret_with_bart_t5`: the extracted task label on
success, `None` when either generative stage faults. -/
def interpret_with_bart_t5 (bart t5 : String → Except Err String)
    (command : String) : Option String :=
  match interpret_with_bart_t5_run bart t5 command with
  | .ok v => v
  | .error _ => none

/-! ### The Chained Resolution Engine (spec sections 3, 4.1, 4.2)

The ChainedResolver and its ResolutionCache belong to the part of the
repository that is not under `src/` (only the strategy probes of
`CommandInterpreter` are); they are modelled from the specification. -/

/-- Modelled from the spec: a `ResolvedValue` is a string payload plus
metadata, the identity of the source strategy and a timestamp
(spec section 3); immutable once stored. -/
structure ResolvedValue where
  payload : String
  sourceStrategy : String
  timestamp : Nat
  deriving DecidableEq, Repr

/-- Modelled from the spec: a `ResolverBackend` is a fallible function from
a query to an optional result (spec section 2), carrying its identity for
the cache tag. A run returning `.error` models a raised fault, `.ok none`
an empty result, `.ok (some p)` a non-empty payload (success). -/
structure Backend where
  ident : String
  run : String → Except Err (Option String)

/-- Modelled from the spec: the `ResolutionCache`, a mapping from query key
to resolved value with unique keys (spec sections 3, 4.1), as an
association list. -/
def ResolutionCache := List (String × ResolvedValue)

/-- Modelled from the spec: `ResolutionCache.get(query)`. -/
def cacheGet (cache : ResolutionCache) (q : String) : Option ResolvedValue :=
  match cache with
  | [] => none
  | (k, v) :: rest => if k = q then some v else cacheGet rest q

/-- Modelled from the spec: `ResolutionCache.put(query, value)`, an
idempotent overwrite keeping keys unique (spec section 4.1). -/
def cachePut (cache : ResolutionCache) (q : String) (v : ResolvedValue) :
    ResolutionCache :=
  (q, v) :: cache.filter (fun e => e.1 ≠ q)

/-- Modelled from the spec: one traversal of the `BackendChain` in priority
order (spec section 4.2, steps 2-3). Returns the `ResolvedValue` produced
by the first backend that succeeds (non-empty payload, no fault) tagged
with that backend's identity, or `none` when the chain is exhausted, paired
with the number of backends invoked (the instrumentation counter of spec
section 8). A fault is treated identically to an empty result: advance. -/
def runChain (chain : List Backend) (q : String) (now : Nat) :
    Option ResolvedValue × Nat :=
  match chain with
  | [] => (none, 0)
  | b :: rest =>
    match b.run q with
    | .ok (some p) => (some ⟨p, b.ident, now⟩, 1)
    | _ =>
      let (r, n) := runChain rest q now
      (r, n + 1)

/-- The full outcome of one `resolve` call: the result (`none` is the
`UnresolvedMarker`), the cache afterwards, and how many backends were
invoked during the call. -/
structure ResolveOutcome where
  result : Option ResolvedValue
  cache : ResolutionCache
  backendCalls : Nat

/-- Modelled from the spec: `ChainedResolver.resolve` (spec section 4.2).
1. A cached value is returned immediately, no backend invoked.
2. Otherwise the chain is traversed in priority order.
3. The first success is cached (tagged with the backend identity) and
   returned.
4. On exhaustion the `UnresolvedMarker` (`none`) is returned and not
   cached. -/
def resolve (chain : List Backend) (cache : ResolutionCache) (q : String)
    (now : Nat) : ResolveOutcome :=
  match cacheGet cache q with
  | some v => ⟨some v, cache, 0⟩
  | none =>
    match runChain chain q now with
    | (some v, n) => ⟨some v, cachePut cache q v, n⟩
    | (none, n) => ⟨none, cache, n⟩

/-! ### `VirtualWorld.simulate_task` (Samvartha.py lines 142-154) -/

/-- The mutable state of a `VirtualWorld`: its list of experience records,
each `{"task": ..., "result": ...}` modelled as a pair. -/
structure VirtualWorld where
  experiences : List (String × String)
  deriving DecidableEq, Repr

/-- `VirtualWorld.simulate_task`: `random.choice([True, False])` is passed
in as `success`; the record is appended to `experiences` and the result
string returned. (The `try:` body cannot fault: choosing from a non-empty
literal list and appending to a list never raise.) -/
def simulate_task (w : VirtualWorld) (success : Bool)
    (task_description : String) : VirtualWorld × String :=
  let result := if success then "success" else "failure"
  (⟨w.experiences ++ [(task_description, result)]⟩, result)

/-! ## Helper lemmas -/

/-- A `try/except Exception` block never lets a fault escape: `pyTry`
always returns an `.ok` value. -/
theorem pyTry_ok {α : Type} (body : Except Err α) (handler : Err → α) :
    ∃ v, pyTry body handler = .ok v := by
  cases body with
  | ok a => exact ⟨a, rfl⟩
  | error e => exact ⟨handler e, rfl⟩

/-- Looking up a key just stored finds the stored value. -/
theorem cacheGet_cachePut (cache : ResolutionCache) (q : String)
    (v : ResolvedValue) : cacheGet (cachePut cache q v) q = some v := by
  simp [cacheGet, cachePut]

/-! ## Claim theorems -/

/-- Claim C1: through the rule-based strategy, "play song 42" resolves to
the play intent with numeric argument 42, "pause now" to the pause intent,
and "what is the weather" to the unrecognized value. -/
theorem c1_regex_scenarios :
    interpret_with_regex "play song 42" = "Playing song number 42"
    ∧ interpret_with_regex "pause now" = "Pausing the song"
    ∧ interpret_with_regex "what is the weather" = "Command not recognized" :=
  ⟨rfl, rfl, rfl⟩

/-- Claim C2 (failing input): on "Play Song 42" the case-insensitive guard
`play.*song (\d+)` matches, but the second, case-sensitive search
`song (\d+)` finds nothing, so `.group(1)` raises and the handler returns
"Error processing command" instead of the play intent with 42. -/
theorem c2_case_bug_at_play_song_42 :
    interpret_with_regex "Play Song 42" = "Error processing command"
    ∧ searchPlaySong "Play Song 42".data = true
    ∧ searchSongNum false "Play Song 42".data = none :=
  ⟨rfl, rfl, rfl⟩

/-- Claim C3: none of the four interpretation strategies ever lets an
exception reach the caller — whatever the external backends do, each
strategy's observable run is an `.ok` value (a structured result or the
absent/unrecognized value). -/
theorem c3_strategies_never_raise {Doc : Type} (nlp : String → Except Err Doc)
    (word_tokenize : String → Except Err (List String))
    (pos_tag : List String → Except Err (List (String × String)))
    (bart t5 : String → Except Err String) (command : String) :
    (∃ v, interpret_with_spacy_run nlp command = .ok v)
    ∧ (∃ v, interpret_with_nltk_run word_tokenize pos_tag command = .ok v)
    ∧ (∃ r, interpret_with_regex_run command = .ok r)
    ∧ (∃ v, interpret_with_bart_t5_run bart t5 command = .ok v) :=
  ⟨pyTry_ok _ _, pyTry_ok _ _, pyTry_ok _ _, pyTry_ok _ _⟩

/-- Claim C7: `interpret_with_bart_t5` is a two-stage pipeline — paraphrase
with BART, then extract a task from "Extract task: " ++ paraphrase with T5;
when both stages succeed it returns the extracted label, and a fault at
either stage yields `none` to the caller, never an exception. -/
theorem c7_bart_t5_two_stage (bart t5 : String → Except Err String)
    (command : String) :
    (∀ p t, bart command = .ok p → t5 ("Extract task: " ++ p) = .ok t →
        interpret_with_bart_t5 bart t5 command = some t)
    ∧ (∀ e, bart command = .error e →
        interpret_with_bart_t5 bart t5 command = none)
    ∧ (∀ p e, bart command = .ok p → t5 ("Extract task: " ++ p) = .error e →
        interpret_with_bart_t5 bart t5 command = none) := by
  refine ⟨?_, ?_, ?_⟩ <;> intros <;>
    simp_all [interpret_with_bart_t5, interpret_with_bart_t5_run,
      interpret_with_bart_t5_body, pyTry]

/-- Claim C7 witness: concrete two-stage runs — both stages succeed, stage
one faults, stage two faults. -/
theorem c7_bart_t5_two_stage_witness :
    interpret_with_bart_t5 (fun _ => Except.ok "go")
        (fun _ => Except.ok "task") "cmd" = some "task"
    ∧ interpret_with_bart_t5 (fun _ => Except.error "down")
        (fun _ => Except.ok "task") "cmd" = none
    ∧ interpret_with_bart_t5 (fun _ => Except.ok "go")
        (fun _ => Except.error "down") "cmd" = none :=
  ⟨(c7_bart_t5_two_stage _ _ _).1 "go" "task" rfl rfl,
   (c7_bart_t5_two_stage _ _ _).2.1 "down" rfl,
   (c7_bart_t5_two_stage _ _ _).2.2 "go" "down" rfl rfl⟩

/-- Claim C8: when tokenizing and tagging succeed, `interpret_with_nltk`
returns exactly the ordered `(token, tag)` sequence produced by tagging
the tokenization of the command; being a pure function of its inputs it
mutates no service state. -/
theorem c8_nltk_tagged_pairs (word_tokenize : String → Except Err (List String))
    (pos_tag : List String → Except Err (List (String × String)))
    (command : String) (tokens : List String)
    (tagged : List (String × String))
    (htok : word_tokenize command = .ok tokens)
    (htag : pos_tag tokens = .ok tagged) :
    interpret_with_nltk word_tokenize pos_tag command = some tagged := by
  simp [interpret_with_nltk, interpret_with_nltk_run, interpret_with_nltk_body,
    pyTry, htok, htag]

/-- Claim C8 witness: a concrete tokenizer and tagger. -/
theorem c8_nltk_tagged_pairs_witness :
    interpret_with_nltk (fun _ => Except.ok ["play", "now"])
        (fun _ => Except.ok [("play", "VB"), ("now", "RB")]) "play now"
      = some [("play", "VB"), ("now", "RB")] :=
  c8_nltk_tagged_pairs _ _ _ _ _ rfl rfl

/-- Claim C9: whenever the play-song guard matches and the numeric
extraction succeeds, the rule-based strategy returns the play intent with
the extracted digits — even when the command also contains "pause"; the
play rule strictly precedes the pause rule. -/
theorem c9_play_rule_precedes_pause (command : String) (ds : List Char)
    (hplay : searchPlaySong command.data = true)
    (hnum : searchSongNum false command.data = some ds)
    (hpause : containsPause command = true) :
    interpret_with_regex command = "Playing song number " ++ String.mk ds := by
  simp [interpret_with_regex, interpret_with_regex_run,
    interpret_with_regex_body, pyTry, hplay, hnum]

/-- Claim C9 witness: "play song 5 pause" contains "pause" yet yields the
play intent for song 5. -/
theorem c9_play_rule_precedes_pause_witness :
    interpret_with_regex "play song 5 pause"
      = "Playing song number " ++ String.mk ['5'] :=
  c9_play_rule_precedes_pause "play song 5 pause" ['5'] rfl rfl rfl

/-- Claim C4: cache idempotence of the chained resolver. Once `resolve`
has produced a `ResolvedValue` for a query, a subsequent `resolve` of the
same query returns that identical value verbatim, leaves the cache
unchanged, and invokes zero backends. -/
theorem c4_cache_idempotence (chain : List Backend) (cache : ResolutionCache)
    (q : String) (now now' : Nat) (v : ResolvedValue)
    (h : (resolve chain cache q now).result = some v) :
    resolve chain (resolve chain cache q now).cache q now'
      = ⟨some v, (resolve chain cache q now).cache, 0⟩ := by
  cases hg : cacheGet cache q with
  | some w =>
    simp only [resolve, hg] at h ⊢
    cases h
    simp [hg]
  | none =>
    cases hr : runChain chain q now with
    | mk r n =>
      cases r with
      | none => simp [resolve, hg, hr] at h
      | some u =>
        simp only [resolve, hg, hr] at h ⊢
        cases h
        simp [cacheGet_cachePut]

/-- Claim C4 witness: a one-backend chain resolves "quantum computing", and
the second call returns the identical value from the cache with zero
backend invocations. -/
theorem c4_cache_idempotence_witness :
    resolve [⟨"b1", fun _ => Except.ok (some "X")⟩]
        (resolve [⟨"b1", fun _ => Except.ok (some "X")⟩] [] "quantum computing" 0).cache
        "quantum computing" 1
      = ⟨some ⟨"X", "b1", 0⟩,
         (resolve [⟨"b1", fun _ => Except.ok (some "X")⟩] [] "quantum computing" 0).cache,
         0⟩ :=
  c4_cache_idempotence _ _ _ _ _ _ rfl

/-- Claim C5: priority ordering. On a cache miss, when the head backend B1
of the chain [B1, B2, B3] succeeds, the resolver returns B1's payload
tagged with B1's identity, caches exactly that value, and has invoked one
backend only — B2 and B3 are never run. -/
theorem c5_priority_ordering (b1 b2 b3 : Backend) (cache : ResolutionCache)
    (q p : String) (now : Nat)
    (hmiss : cacheGet cache q = none)
    (hb1 : b1.run q = Except.ok (some p)) :
    resolve [b1, b2, b3] cache q now
      = ⟨some ⟨p, b1.ident, now⟩, cachePut cache q ⟨p, b1.ident, now⟩, 1⟩ := by
  simp [resolve, hmiss, runChain, hb1]

/-- Claim C5 witness: B1 succeeds with "X" while B2 would succeed with "Y"
and B3 would fault; the result is "X" from "b1", cached, after exactly one
backend invocation. -/
theorem c5_priority_ordering_witness :
    resolve [⟨"b1", fun _ => Except.ok (some "X")⟩,
             ⟨"b2", fun _ => Except.ok (some "Y")⟩,
             ⟨"b3", fun _ => Except.error "down"⟩] [] "q" 7
      = ⟨some ⟨"X", "b1", 7⟩, cachePut [] "q" ⟨"X", "b1", 7⟩, 1⟩ :=
  c5_priority_ordering _ _ _ _ _ _ _ rfl rfl

/-- Claim C6 counterexample: the empty command is not rejected up front
with a distinct error — `interpret_with_regex` runs its ordinary branches
on it and yields the same unrecognized sentinel as any unmatched command. -/
theorem c6_empty_query_counterexample :
    interpret_with_regex "" = "Command not recognized" :=
  rfl

/-- Claim C6 (amended): the empty query flows through the normal rule
branches; the caller receives the unrecognized sentinel "Command not
recognized" — identical to the chain-exhaustion value for an unmatched
command and distinct from the fault value "Error processing command" —
and no malformed-query rejection exists. -/
theorem c6_empty_query_unrecognized :
    interpret_with_regex "" = "Command not recognized"
    ∧ interpret_with_regex "" = interpret_with_regex "what is the weather"
    ∧ interpret_with_regex "" ≠ "Error processing command" :=
  ⟨rfl, rfl, by decide⟩

/-- Claim C10: every call of `simulate_task` appends exactly one record to
`experiences` — its task field is the argument and its result field equals
the returned value, which is "success" or "failure" — and all previously
stored records are unchanged (they form the prefix of the new list). -/
theorem c10_simulate_task_appends (w : VirtualWorld) (success : Bool)
    (task_description : String) :
    (simulate_task w success task_description).1.experiences
        = w.experiences
            ++ [(task_description, (simulate_task w success task_description).2)]
    ∧ ((simulate_task w success task_description).2 = "success"
       ∨ (simulate_task w success task_description).2 = "failure") := by
  cases success <;> simp [simulate_task]
